import Mathlib

/-!
Verification of the RecordAuditor scripts (`check_csv_urls.py`,
`check_missing_urls.py`).

A CSV row handed to the audit loop by `csv.DictReader` is a mapping from
field name to field value.  For well-formed rows every value is a string;
`Record` models that case.  For rows with fewer columns than the header,
`DictReader` stores the Python value `None` under the truncated keys, so the
general shape of a row is a mapping to an optional string; `RecordE` models
that case, with `none` standing for Python `None`.

`row.get(key, '')` returns the stored value when the key is present (possibly
`None`) and the string `''` when it is absent; `getValE` models this.
Calling `.strip()` on `None` raises `AttributeError`, which the optional
result of `auditStepE` / `analyzeE` models as `none`.
-/

/-- A well-formed CSV row: an association list from field name to field
value, every value a string. -/
abbrev Record := List (String × String)

/-- A raw `DictReader` row: the stored value may be Python `None`
(modelled as `none`) when the data row had fewer columns than the header. -/
abbrev RecordE := List (String × Option String)

/-- Counters accumulated by the audit loop of `analyze_csv`
(`total_rows`, `rows_with_skus`, `rows_with_urls`, `rows_with_both`,
`missing_url_skus`). -/
structure AuditResult where
  total : Nat
  with_skus : Nat
  with_urls : Nat
  with_both : Nat
  missing_url_skus : List String
deriving DecidableEq, Repr

/-- The dict returned by `analyze_csv` (lines 52-57): only the four
counters, not the missing-SKU list. -/
structure Stats where
  total : Nat
  with_skus : Nat
  with_urls : Nat
  with_both : Nat
deriving DecidableEq, Repr

/-- Python's `str.strip()`: remove leading and trailing whitespace,
written directly over the character list so that it evaluates by structural
recursion. -/
def strip (s : String) : String :=
  ⟨((s.data.dropWhile Char.isWhitespace).reverse.dropWhile
      Char.isWhitespace).reverse⟩

/-- `row.get('SKU', '').strip()` on a well-formed row. -/
def skuOf (row : Record) : String :=
  strip ((row.lookup "SKU").getD "")

/-- `row.get('Origin URL', '').strip()` on a well-formed row. -/
def urlOf (row : Record) : String :=
  strip ((row.lookup "Origin URL").getD "")

/-- The counter updates of one loop iteration (lines 21-36), applied to the
already-trimmed field values. -/
def updateCounts (acc : AuditResult) (sku url : String) : AuditResult :=
  { total := acc.total + 1
    with_skus := acc.with_skus + (if sku ≠ "" then 1 else 0)
    with_urls := acc.with_urls + (if url ≠ "" then 1 else 0)
    with_both := acc.with_both + (if sku ≠ "" ∧ url ≠ "" then 1 else 0)
    missing_url_skus :=
      acc.missing_url_skus ++ (if sku ≠ "" ∧ url = "" then [sku] else []) }

/-- One iteration of the loop body of `analyze_csv` on a well-formed row. -/
def auditStep (acc : AuditResult) (row : Record) : AuditResult :=
  updateCounts acc (skuOf row) (urlOf row)

/-- The counters before the loop starts (lines 13-17). -/
def initResult : AuditResult := ⟨0, 0, 0, 0, []⟩

/-- The aggregation loop of `analyze_csv` over a sequence of well-formed
rows. -/
def analyze_csv (rows : List Record) : AuditResult :=
  rows.foldl auditStep initResult

/-- `row.get(key, '')` on a raw `DictReader` row: the stored value (possibly
`none`, i.e. Python `None`) when the key is present, the empty string when
absent. -/
def getValE (row : RecordE) (key : String) : Option String :=
  (row.lookup key).getD (some "")

/-- One iteration of the loop body on a raw row.  When either designated
value is Python `None`, the call `.strip()` raises `AttributeError`,
modelled as `none`. -/
def auditStepE (acc : AuditResult) (row : RecordE) : Option AuditResult :=
  match getValE row "SKU", getValE row "Origin URL" with
  | some sku, some url => some (updateCounts acc (strip sku) (strip url))
  | _, _ => none

/-- The aggregation loop over raw rows; `none` means the loop raised. -/
def analyzeE (rows : List RecordE) : Option AuditResult :=
  rows.foldlM auditStepE initResult

/-- A well-formed row viewed as a raw row (every value present as a
string). -/
def recordToE (row : Record) : RecordE :=
  row.map (fun p => (p.1, some p.2))

/- Characterization of the fold. -/

/-- Row qualifies for the missing-URL list: non-empty SKU, empty URL. -/
def missingQual (r : Record) : Bool :=
  skuOf r != "" && urlOf r == ""

/-- The dict literal returned by `analyze_csv` (lines 52-57): it carries the
four counters and drops `missing_url_skus`. -/
def AuditResult.stats (r : AuditResult) : Stats :=
  ⟨r.total, r.with_skus, r.with_urls, r.with_both⟩

/-- Field-wise addition of two returned dicts, as performed by the
module-level totals (lines 65-68). -/
def addStats (a b : Stats) : Stats :=
  ⟨a.total + b.total, a.with_skus + b.with_skus,
   a.with_urls + b.with_urls, a.with_both + b.with_both⟩

/-- All counters zero. -/
def zeroStats : Stats := ⟨0, 0, 0, 0⟩

/-- The `summarize` operation: elementwise sum of the counters of an ordered
sequence of results, the fold underlying lines 65-68. -/
def summarize (l : List Stats) : Stats :=
  l.foldl addStats zeroStats

/-- The numbered listing `enumerate(missing_url_skus, 1)` produces: line
`i. sku` for each entry, counting from 1. -/
def numberedList (skus : List String) : List String :=
  skus.enum.map (fun p => toString (p.1 + 1) ++ ". " ++ p.2)

/-- The missing-SKU listing block of `check_csv_urls.analyze_csv`
(lines 45-50), as the list of printed lines; a print starting with a newline
contributes a leading empty line. -/
def csvMissingBlock (skus : List String) : List String :=
  if skus ≠ [] ∧ skus.length < 10 then
    "" :: "SKUs missing URLs:" :: numberedList skus
  else if skus ≠ [] then
    ["", "Found " ++ toString skus.length ++ " SKUs missing URLs (too many to list)"]
  else []

/-- The missing-SKU listing block of `check_missing_urls.py` (lines 41-44):
printed whenever the list is non-empty, always fully enumerated. -/
def legacyMissingBlock (skus : List String) : List String :=
  if skus ≠ [] then "" :: "SKUs missing URLs:" :: numberedList skus
  else []

/-- The five per-source counter lines (lines 39-43). -/
def reportLines (r : AuditResult) : List String :=
  ["Total rows: " ++ toString r.total,
   "Rows with SKUs: " ++ toString r.with_skus,
   "Rows with URLs: " ++ toString r.with_urls,
   "Rows with both SKU and URL: " ++ toString r.with_both,
   "Rows with SKU but missing URL: " ++ toString r.missing_url_skus.length]

/-- The summary block printed at lines 70-74: a leading blank line from the
newline in the header print, the header, then four counter lines. -/
def summaryBlock (t s u b : Nat) : List String :=
  ["", "=== SUMMARY ===",
   "Total records across all CSVs: " ++ toString t,
   "Total records with SKUs: " ++ toString s,
   "Total records with URLs: " ++ toString u,
   "Total records with both SKU and URL: " ++ toString b]

/-- The module body's summary over its three sources, with the totals
computed field by field as at lines 65-68. -/
def moduleSummaryLines (apr artec bilstein : Stats) : List String :=
  summaryBlock (apr.total + artec.total + bilstein.total)
    (apr.with_skus + artec.with_skus + bilstein.with_skus)
    (apr.with_urls + artec.with_urls + bilstein.with_urls)
    (apr.with_both + artec.with_both + bilstein.with_both)

/-- Modelled from the spec: the summary block as section 6 describes it,
with the same five counter lines as the per-source report, the fifth being
the SKU-but-missing-URL count.  Used only to compare the spec's wording with
`summaryBlock`. -/
def specSummaryBlock (t s u b m : Nat) : List String :=
  ["", "=== SUMMARY ===",
   "Total records across all CSVs: " ++ toString t,
   "Total records with SKUs: " ++ toString s,
   "Total records with URLs: " ++ toString u,
   "Total records with both SKU and URL: " ++ toString b,
   "Total records with SKU but missing URL: " ++ toString m]

/-- The four-row scenario of spec section 8: identifiers A, B, empty, empty;
links x, empty, y, empty. -/
def scenarioRows : List Record :=
  [[("SKU", "A"), ("Origin URL", "x")],
   [("SKU", "B"), ("Origin URL", "")],
   [("SKU", ""), ("Origin URL", "y")],
   [("SKU", ""), ("Origin URL", "")]]

theorem foldl_auditStep_eq (rows : List Record) :
    ∀ acc : AuditResult,
      rows.foldl auditStep acc =
        ⟨acc.total + rows.length,
         acc.with_skus + rows.countP (fun r => skuOf r != ""),
         acc.with_urls + rows.countP (fun r => urlOf r != ""),
         acc.with_both + rows.countP (fun r => skuOf r != "" && urlOf r != ""),
         acc.missing_url_skus ++ (rows.filter missingQual).map skuOf⟩ := by
  induction rows with
  | nil =>
      intro acc
      simp [List.countP_nil]
  | cons r rs ih =>
      intro acc
      rw [List.foldl_cons, ih]
      by_cases hs : skuOf r = "" <;> by_cases hu : urlOf r = "" <;>
        simp [auditStep, updateCounts, missingQual, hs, hu,
          List.countP_cons, List.filter_cons, AuditResult.mk.injEq] <;>
        omega

theorem analyze_csv_eq (rows : List Record) :
    analyze_csv rows =
      ⟨rows.length,
       rows.countP (fun r => skuOf r != ""),
       rows.countP (fun r => urlOf r != ""),
       rows.countP (fun r => skuOf r != "" && urlOf r != ""),
       (rows.filter missingQual).map skuOf⟩ := by
  have h := foldl_auditStep_eq rows initResult
  simpa [analyze_csv, initResult] using h

theorem countP_split {α : Type} (l : List α) (p q : α → Bool) :
    l.countP p =
      l.countP (fun a => p a && q a) + l.countP (fun a => p a && !q a) := by
  induction l with
  | nil => simp
  | cons a t ih =>
      cases hpa : p a <;> cases hqa : q a <;>
        simp [List.countP_cons, hpa, hqa, ih] <;> omega

theorem countP_missingQual (rows : List Record) :
    rows.countP (fun r => skuOf r != "") =
      rows.countP (fun r => skuOf r != "" && urlOf r != "") +
        rows.countP missingQual := by
  have h := countP_split rows (fun r => skuOf r != "") (fun r => urlOf r != "")
  have heq : (fun r => (skuOf r != "") && !(urlOf r != "")) = missingQual := by
    funext r
    simp [missingQual, bne, Bool.not_not]
  rw [heq] at h
  exact h

/-- C1: audit computes the counters by the per-row rule — each row is
counted in `total`; the trimmed identifier and link (absent field read as
the empty string) drive `with_skus`, `with_urls`, `with_both` and the
appending of the identifier to `missing_url_skus` — and on the four-row
scenario the result is total 4, with identifier 2, with link 2, with both 1,
missing list B. -/
theorem audit_per_row_rule :
    (∀ (acc : AuditResult) (row : Record),
        auditStep acc row =
          { total := acc.total + 1
            with_skus := acc.with_skus + (if skuOf row ≠ "" then 1 else 0)
            with_urls := acc.with_urls + (if urlOf row ≠ "" then 1 else 0)
            with_both := acc.with_both +
              (if skuOf row ≠ "" ∧ urlOf row ≠ "" then 1 else 0)
            missing_url_skus := acc.missing_url_skus ++
              (if skuOf row ≠ "" ∧ urlOf row = "" then [skuOf row] else []) })
    ∧ (∀ rows : List Record,
        (analyze_csv rows).total = rows.length ∧
        (analyze_csv rows).with_skus = rows.countP (fun r => skuOf r != "") ∧
        (analyze_csv rows).with_urls = rows.countP (fun r => urlOf r != "") ∧
        (analyze_csv rows).with_both =
          rows.countP (fun r => skuOf r != "" && urlOf r != "") ∧
        (analyze_csv rows).missing_url_skus =
          (rows.filter missingQual).map skuOf)
    ∧ analyze_csv scenarioRows = ⟨4, 2, 2, 1, ["B"]⟩ := by
  refine ⟨fun acc row => rfl, fun rows => ?_, by decide⟩
  rw [analyze_csv_eq]
  exact ⟨rfl, rfl, rfl, rfl, rfl⟩

/-- C2: for every input the counters satisfy
with both ≤ with identifier ≤ total, with both ≤ with link ≤ total, and the
missing list has length with identifier minus with both. -/
theorem audit_counter_invariants :
    ∀ rows : List Record,
      (analyze_csv rows).with_both ≤ (analyze_csv rows).with_skus ∧
      (analyze_csv rows).with_skus ≤ (analyze_csv rows).total ∧
      (analyze_csv rows).with_both ≤ (analyze_csv rows).with_urls ∧
      (analyze_csv rows).with_urls ≤ (analyze_csv rows).total ∧
      (analyze_csv rows).missing_url_skus.length =
        (analyze_csv rows).with_skus - (analyze_csv rows).with_both := by
  intro rows
  rw [analyze_csv_eq]
  dsimp only
  have hmono1 : rows.countP (fun r => skuOf r != "" && urlOf r != "") ≤
      rows.countP (fun r => skuOf r != "") :=
    List.countP_mono_left (fun r _ h => by
      simp only [Bool.and_eq_true] at h
      exact h.1)
  have hmono2 : rows.countP (fun r => skuOf r != "" && urlOf r != "") ≤
      rows.countP (fun r => urlOf r != "") :=
    List.countP_mono_left (fun r _ h => by
      simp only [Bool.and_eq_true] at h
      exact h.2)
  have hlen : ((rows.filter missingQual).map skuOf).length =
      rows.countP missingQual := by
    rw [List.length_map, ← List.countP_eq_length_filter]
  have hsplit := countP_missingQual rows
  refine ⟨hmono1, List.countP_le_length _, hmono2, List.countP_le_length _, ?_⟩
  rw [hlen]
  omega

/-- C7: audit is deterministic — two runs over the same static input
produce results with identical counters and missing lists. -/
theorem audit_deterministic :
    ∀ (rows : List Record) (r1 r2 : AuditResult),
      r1 = analyze_csv rows → r2 = analyze_csv rows →
      r1.total = r2.total ∧ r1.with_skus = r2.with_skus ∧
      r1.with_urls = r2.with_urls ∧ r1.with_both = r2.with_both ∧
      r1.missing_url_skus = r2.missing_url_skus := by
  intro rows r1 r2 h1 h2
  subst h1
  subst h2
  exact ⟨rfl, rfl, rfl, rfl, rfl⟩

/-- Witness for C7: two runs over the scenario rows agree. -/
theorem audit_deterministic_witness :
    (⟨4, 2, 2, 1, ["B"]⟩ : AuditResult).total =
        (⟨4, 2, 2, 1, ["B"]⟩ : AuditResult).total ∧
      (⟨4, 2, 2, 1, ["B"]⟩ : AuditResult).with_skus =
        (⟨4, 2, 2, 1, ["B"]⟩ : AuditResult).with_skus ∧
      (⟨4, 2, 2, 1, ["B"]⟩ : AuditResult).with_urls =
        (⟨4, 2, 2, 1, ["B"]⟩ : AuditResult).with_urls ∧
      (⟨4, 2, 2, 1, ["B"]⟩ : AuditResult).with_both =
        (⟨4, 2, 2, 1, ["B"]⟩ : AuditResult).with_both ∧
      (⟨4, 2, 2, 1, ["B"]⟩ : AuditResult).missing_url_skus =
        (⟨4, 2, 2, 1, ["B"]⟩ : AuditResult).missing_url_skus :=
  audit_deterministic scenarioRows ⟨4, 2, 2, 1, ["B"]⟩ ⟨4, 2, 2, 1, ["B"]⟩
    (by decide) (by decide)

/-- C9: the missing list records one entry per qualifying row in encounter
order with no deduplication — an identifier occurring in k qualifying rows
appears k times, the list length counts rows, and two identical SKU-only
rows yield the list D, D. -/
theorem missing_list_no_dedup :
    (∀ rows : List Record,
      (analyze_csv rows).missing_url_skus =
        (rows.filter missingQual).map skuOf ∧
      (analyze_csv rows).missing_url_skus.length =
        rows.countP missingQual ∧
      (∀ s : String,
        (analyze_csv rows).missing_url_skus.count s =
          rows.countP (fun r => (skuOf r == s) && missingQual r)))
    ∧ analyze_csv [[("SKU", "D")], [("SKU", "D")]] = ⟨2, 2, 0, 0, ["D", "D"]⟩ := by
  refine ⟨fun rows => ?_, by decide⟩
  rw [analyze_csv_eq]
  refine ⟨rfl, ?_, fun s => ?_⟩
  · rw [List.length_map, ← List.countP_eq_length_filter]
  · rw [List.count, List.countP_map, List.countP_filter]
    rfl

theorem lookup_recordToE (row : Record) (k : String) :
    (recordToE row).lookup k = (row.lookup k).map some := by
  induction row with
  | nil => rfl
  | cons p t ih =>
      cases hk : k == p.1
      · simp [recordToE, List.lookup, hk]
        simpa [recordToE] using ih
      · simp [recordToE, List.lookup, hk]

theorem auditStepE_toE (acc : AuditResult) (row : Record) :
    auditStepE acc (recordToE row) = some (auditStep acc row) := by
  unfold auditStepE auditStep getValE
  rw [lookup_recordToE, lookup_recordToE]
  cases h1 : row.lookup "SKU" <;> cases h2 : row.lookup "Origin URL" <;>
    simp [skuOf, urlOf, h1, h2]

theorem foldlM_auditStepE (rows : List Record) :
    ∀ acc : AuditResult,
      (rows.map recordToE).foldlM auditStepE acc =
        some (rows.foldl auditStep acc) := by
  induction rows with
  | nil => intro acc; rfl
  | cons r t ih =>
      intro acc
      simp [List.foldlM_cons, auditStepE_toE, ih, List.foldl_cons]

/-- C3 counterexample: a data row shorter than the header leaves the
designated SKU column present with value Python `None` (the `DictReader`
restval), and `row.get('SKU', '').strip()` then raises `AttributeError`,
modelled by the audit returning `none` instead of a result. -/
theorem audit_short_row_error :
    analyzeE [[("SKU", none)]] = none := by
  decide

/-- C3 (amended): on rows whose designated fields are absent or hold string
values the audit raises no error — every well-formed row sequence is
processed to completion with the `analyze_csv` result — and a row missing
both designated fields increments only `total`, leaving every presence
counter and the missing list unchanged.  A short `DictReader` row that
stores `None` under a designated field does raise (see counterexample). -/
theorem audit_no_error_amended :
    (∀ rows : List Record,
      analyzeE (rows.map recordToE) = some (analyze_csv rows)) ∧
    (∀ (acc : AuditResult) (row : Record),
      row.lookup "SKU" = none → row.lookup "Origin URL" = none →
      auditStep acc row = { acc with total := acc.total + 1 }) := by
  have hstrip : strip "" = "" := rfl
  refine ⟨fun rows => foldlM_auditStepE rows initResult, ?_⟩
  intro acc row h1 h2
  simp [auditStep, updateCounts, skuOf, urlOf, h1, h2, hstrip]

/-- Witness for C3 (amended): the scenario rows run without error, and a
concrete row carrying neither designated field only bumps `total`. -/
theorem audit_no_error_witness :
    analyzeE (scenarioRows.map recordToE) = some (analyze_csv scenarioRows) ∧
    auditStep initResult [("Name", "x")] =
      { initResult with total := initResult.total + 1 } :=
  ⟨audit_no_error_amended.1 scenarioRows,
   audit_no_error_amended.2 initResult [("Name", "x")] (by decide) (by decide)⟩

theorem foldl_agree {rows1 rows2 : List Record}
    (h : List.Forall₂
      (fun r1 r2 => skuOf r1 = skuOf r2 ∧ urlOf r1 = urlOf r2) rows1 rows2) :
    ∀ acc : AuditResult,
      rows1.foldl auditStep acc = rows2.foldl auditStep acc := by
  induction h with
  | nil => intro acc; rfl
  | @cons a b as bs hab htail ih =>
      intro acc
      have hstep : auditStep acc a = auditStep acc b := by
        unfold auditStep
        rw [hab.1, hab.2]
      rw [List.foldl_cons, List.foldl_cons, hstep]
      exact ih _

/-- C10: the audit result depends only on the trimmed designated field
values — any two row sequences of equal length agreeing row by row on the
trimmed SKU and Origin URL values produce identical counters and missing
lists, whatever the other fields hold. -/
theorem audit_noninterference :
    ∀ rows1 rows2 : List Record,
      List.Forall₂
        (fun r1 r2 => skuOf r1 = skuOf r2 ∧ urlOf r1 = urlOf r2) rows1 rows2 →
      analyze_csv rows1 = analyze_csv rows2 := by
  intro rows1 rows2 h
  unfold analyze_csv
  exact foldl_agree h initResult

/-- Witness for C10: a row with an extra Color field and no URL column
audits identically to a row with the same trimmed SKU and a
whitespace-only URL. -/
theorem audit_noninterference_witness :
    analyze_csv [[("SKU", " A "), ("Color", "red")]] =
      analyze_csv [[("SKU", "A"), ("Origin URL", "   ")]] :=
  audit_noninterference _ _
    (List.Forall₂.cons ⟨by decide, by decide⟩ List.Forall₂.nil)

/-- C8: the elementwise counter sum forming the grand total is commutative
and associative, so the order of summing sources never changes the grand
total. -/
theorem stats_sum_comm_assoc :
    ∀ a b c : Stats,
      addStats a b = addStats b a ∧
      addStats (addStats a b) c = addStats a (addStats b c) := by
  intro a b c
  constructor <;> (simp [addStats, Stats.mk.injEq]; omega)

theorem foldl_addStats_eq (l : List Stats) :
    ∀ acc : Stats,
      l.foldl addStats acc =
        ⟨acc.total + (l.map Stats.total).sum,
         acc.with_skus + (l.map Stats.with_skus).sum,
         acc.with_urls + (l.map Stats.with_urls).sum,
         acc.with_both + (l.map Stats.with_both).sum⟩ := by
  induction l with
  | nil => intro acc; cases acc; simp
  | cons a t ih =>
      intro acc
      rw [List.foldl_cons, ih]
      simp [addStats, Stats.mk.injEq, List.sum_cons]
      omega

/-- C5 counterexample: summing the three scenario sources whose
(total, with identifier, with both) are (10, 2, 1), (5, 1, 1) and
(3, 0, 0) elementwise gives a grand with-both of 1 + 1 + 0 = 2, not the
claimed 3 (the grand total is indeed 18). -/
theorem summarize_scenario_cex :
    (summarize [⟨10, 2, 0, 1⟩, ⟨5, 1, 0, 1⟩, ⟨3, 0, 0, 0⟩]).total = 18 ∧
    (summarize [⟨10, 2, 0, 1⟩, ⟨5, 1, 0, 1⟩, ⟨3, 0, 0, 0⟩]).with_both = 2 ∧
    (summarize [⟨10, 2, 0, 1⟩, ⟨5, 1, 0, 1⟩, ⟨3, 0, 0, 0⟩]).with_both ≠ 3 := by
  decide

/-- C5 (amended): summarize is the elementwise sum of the counters; the
per-source dict it consumes drops the missing list (so no lists are
concatenated); and the three-source scenario sums to grand total 18 and
grand with-both 2. -/
theorem summarize_elementwise_sum :
    (∀ l : List Stats,
        (summarize l).total = (l.map Stats.total).sum ∧
        (summarize l).with_skus = (l.map Stats.with_skus).sum ∧
        (summarize l).with_urls = (l.map Stats.with_urls).sum ∧
        (summarize l).with_both = (l.map Stats.with_both).sum) ∧
    (∀ (r : AuditResult) (extra : List String),
        AuditResult.stats { r with missing_url_skus := extra } =
          AuditResult.stats r) ∧
    (∀ u1 u2 u3 : Nat,
        (summarize [⟨10, 2, u1, 1⟩, ⟨5, 1, u2, 1⟩, ⟨3, 0, u3, 0⟩]).total = 18 ∧
        (summarize [⟨10, 2, u1, 1⟩, ⟨5, 1, u2, 1⟩, ⟨3, 0, u3, 0⟩]).with_both = 2) := by
  refine ⟨fun l => ?_, fun r extra => rfl, fun u1 u2 u3 => ?_⟩
  · rw [summarize, foldl_addStats_eq]
    simp [zeroStats]
  · constructor <;> simp [summarize, addStats, zeroStats]

/-- C4 counterexample: in `check_missing_urls.py` a missing count of 12,
which is at least 10, still prints the full enumerated list (line `1. S`
appears) rather than only a single count line, so not every audit run
follows the threshold rule. -/
theorem missing_listing_threshold_cex :
    10 ≤ (List.replicate 12 "S").length ∧
    "1. S" ∈ legacyMissingBlock (List.replicate 12 "S") ∧
    legacyMissingBlock (List.replicate 12 "S") ≠
      ["", "Found 12 SKUs missing URLs (too many to list)"] := by
  decide

/-- C4 (amended): the threshold rule holds for `check_csv_urls.analyze_csv`
— count 0 prints no block, 1 to 9 prints the numbered list, 10 or more
prints a single count line — while `check_missing_urls.py` prints the
numbered list whenever the count is at least 1, with no threshold; the
numbered list has one line per missing identifier. -/
theorem missing_listing_threshold_amended :
    ∀ skus : List String,
      (skus = [] → csvMissingBlock skus = [] ∧ legacyMissingBlock skus = []) ∧
      (skus ≠ [] → skus.length < 10 →
        csvMissingBlock skus = "" :: "SKUs missing URLs:" :: numberedList skus) ∧
      (10 ≤ skus.length →
        csvMissingBlock skus =
          ["", "Found " ++ toString skus.length ++
            " SKUs missing URLs (too many to list)"]) ∧
      (skus ≠ [] →
        legacyMissingBlock skus = "" :: "SKUs missing URLs:" :: numberedList skus) ∧
      (numberedList skus).length = skus.length := by
  intro skus
  refine ⟨fun h => ?_, fun h1 h2 => ?_, fun h => ?_, fun h => ?_, ?_⟩
  · subst h
    constructor <;> simp [csvMissingBlock, legacyMissingBlock]
  · unfold csvMissingBlock
    rw [if_pos ⟨h1, h2⟩]
  · have hne : skus ≠ [] := by
      intro e
      subst e
      simp at h
    unfold csvMissingBlock
    rw [if_neg (fun hc => absurd hc.2 (by omega)), if_pos hne]
  · unfold legacyMissingBlock
    rw [if_pos h]
  · simp [numberedList]

/-- Witness for C4 (amended): one missing identifier prints the numbered
list, twelve print the single count line, and the legacy script enumerates
a single missing identifier the same way. -/
theorem missing_listing_threshold_witness :
    csvMissingBlock ["A"] = ["", "SKUs missing URLs:", "1. A"] ∧
    csvMissingBlock (List.replicate 12 "S") =
      ["", "Found 12 SKUs missing URLs (too many to list)"] ∧
    legacyMissingBlock ["A"] = ["", "SKUs missing URLs:", "1. A"] := by
  refine ⟨?_, ?_, ?_⟩
  · rw [(missing_listing_threshold_amended ["A"]).2.1 (by decide) (by decide)]
    decide
  · rw [(missing_listing_threshold_amended (List.replicate 12 "S")).2.2.1 (by decide)]
    decide
  · rw [(missing_listing_threshold_amended ["A"]).2.2.2.1 (by decide)]
    decide

/-- C6 counterexample: the printed summary block for grand counters
(18, 3, 3, 3) is the header plus exactly four counter lines — six printed
lines in all — and differs from the five-counter-line block the spec
describes, whose fifth line would report the SKU-but-missing-URL count. -/
theorem summary_block_cex :
    summaryBlock 18 3 3 3 =
      ["", "=== SUMMARY ===",
       "Total records across all CSVs: 18",
       "Total records with SKUs: 3",
       "Total records with URLs: 3",
       "Total records with both SKU and URL: 3"] ∧
    (summaryBlock 18 3 3 3).length = 6 ∧
    specSummaryBlock 18 3 3 3 0 ≠ summaryBlock 18 3 3 3 := by
  decide

/-- C6 (amended): after the three sources are processed a summary block is
printed, prefixed by the literal header after a blank line, containing the
four counter lines total, with SKUs, with URLs and with both, each
aggregated over the sources; the per-source fifth line (SKU but missing
URL) is not part of the summary. -/
theorem summary_block_amended :
    ∀ apr artec bilstein : Stats,
      moduleSummaryLines apr artec bilstein =
        ["", "=== SUMMARY ===",
         "Total records across all CSVs: " ++
           toString (apr.total + artec.total + bilstein.total),
         "Total records with SKUs: " ++
           toString (apr.with_skus + artec.with_skus + bilstein.with_skus),
         "Total records with URLs: " ++
           toString (apr.with_urls + artec.with_urls + bilstein.with_urls),
         "Total records with both SKU and URL: " ++
           toString (apr.with_both + artec.with_both + bilstein.with_both)] ∧
      (moduleSummaryLines apr artec bilstein).length = 6 ∧
      "=== SUMMARY ===" ∈ moduleSummaryLines apr artec bilstein ∧
      moduleSummaryLines apr artec bilstein =
        summaryBlock (addStats (addStats apr artec) bilstein).total
          (addStats (addStats apr artec) bilstein).with_skus
          (addStats (addStats apr artec) bilstein).with_urls
          (addStats (addStats apr artec) bilstein).with_both := by
  intro a b c
  refine ⟨rfl, rfl, ?_, rfl⟩
  simp [moduleSummaryLines, summaryBlock]
